import Mathlib

/-!
Verification development for the dairy billing/record reconciliation engine
(TempDairyBackend).  The JavaScript/mongoose code is shallowly embedded:

* mongoose documents become Lean structures; currency amounts and quantities
  (JS numbers used only with +, -, *, min and comparisons) become `Rat`;
* calendar dates and timestamps become `Int` (a day, respectively an abstract
  instant, on a linear time line; `setHours(0,0,0,0)` truncation is reflected
  by storing day-precision dates where the code only ever compares at day
  precision);
* the persistent store becomes an explicit `DB` record threaded through each
  controller function; `Model.findOne` / `find` become `List.find?` /
  `List.filter`; a `save` applies the model's pre-save hooks to the document
  and writes it back;
* HTTP responses become small inductive result types carrying exactly the
  fields the source puts in the JSON body;
* the holiday lookup is an injected oracle (a `Bool` parameter), matching the
  spec's description of the Holiday Oracle as an external collaborator.
-/

namespace Dairy

/-- Invoice lifecycle status, from the enum of src/models/Invoice.js
(the source strings are "pending", "partially_paid", "paid", "overdue";
the second one is spelled `partiallyPaid` here). -/
inductive InvoiceStatus where
  | pending
  | partiallyPaid
  | paid
  | overdue
deriving DecidableEq, Repr

/-- Payment method enum of the payments subdocument in src/models/Invoice.js. -/
inductive PaymentMethod where
  | cash
  | online
  | advance
deriving DecidableEq, Repr

/-- One entry of an invoice's `payments` array (src/models/Invoice.js).
`transactionId` is kept as an opaque optional string. -/
structure Payment where
  amount : Rat
  paymentDate : Int
  paymentMethod : PaymentMethod
  transactionId : Option String := none
  notes : Option String := none
deriving DecidableEq, Repr

/-- Delivery slot name, the `time` enum ("morning" / "evening"). -/
inductive SlotTime where
  | morning
  | evening
deriving DecidableEq, Repr

/-- One milk line item of a delivery slot (milkItemSchema in the Customer
model; the same shape is snapshotted into records and invoice items).
`milkType` and `subcategory` are ObjectId references, embedded as `Nat`. -/
structure MilkItem where
  milkType : Nat
  subcategory : Nat
  quantity : Rat
  pricePerUnit : Rat
  totalPrice : Rat
deriving DecidableEq, Repr

/-- One delivery slot with its line items (deliveryTimeSchema). -/
structure DeliverySlot where
  time : SlotTime
  milkItems : List MilkItem
  totalQuantity : Rat
  totalPrice : Rat
deriving DecidableEq, Repr

/-- A customer document (src/models/Customer.js, the fields the billing
engine reads: standing schedule, credit balance `advance`, active flag).
The schema declares no lower bound on `advance` (`advance : {type : Number,
default : 0}` with no `min`). -/
structure Customer where
  id : Nat
  customerNo : Nat
  name : String
  isActive : Bool
  deliverySchedule : List DeliverySlot
  totalDailyQuantity : Rat
  totalDailyPrice : Rat
  advance : Rat
deriving DecidableEq, Repr

/-- A daily delivery record document (the mongoose `Record` model; its schema
file is not part of the sources, but every field written by the controllers
is listed here exactly as they write it). -/
structure DailyRecord where
  customer : Nat
  date : Int
  deliverySchedule : List DeliverySlot
  totalDailyQuantity : Rat
  totalDailyPrice : Rat
deriving DecidableEq, Repr

/-- One element of an invoice's denormalized `items` array. -/
structure InvoiceItem where
  date : Int
  deliverySchedule : List DeliverySlot
  totalDailyQuantity : Rat
  totalDailyPrice : Rat
deriving DecidableEq, Repr

/-- An invoice document (src/models/Invoice.js). -/
structure Invoice where
  id : Nat
  customer : Nat
  invoiceNumber : String
  startDate : Int
  endDate : Int
  totalQuantity : Rat
  totalAmount : Rat
  amountPaid : Rat
  dueAmount : Rat
  status : InvoiceStatus
  dueDate : Int
  items : List InvoiceItem
  payments : List Payment
deriving DecidableEq, Repr

/-- Quantity adjustment lifecycle status (src/models/QuantityUpdate.js). -/
inductive AdjustStatus where
  | statusPending
  | statusAccepted
  | statusRejected
deriving DecidableEq, Repr

/-- A quantity adjustment document (src/models/QuantityUpdate.js).  The
schema keeps a status enum and a boolean `isAccept` flag in parallel. -/
structure QuantityUpdate where
  id : Nat
  customer : Nat
  date : Int
  time : SlotTime
  oldQuantity : Rat
  newQuantity : Rat
  difference : Rat
  reason : String
  milkType : Nat
  subcategory : Nat
  isAccept : Bool
  status : AdjustStatus
  lastQuantity : Rat
deriving DecidableEq, Repr

/-- The persistent store: the four collections the billing engine touches. -/
structure DB where
  customers : List Customer
  records : List DailyRecord
  invoices : List Invoice
  quantityUpdates : List QuantityUpdate
deriving DecidableEq, Repr

/-! ## The Invoice pre-save hook (src/models/Invoice.js lines 118-135)

Every mongoose `save()` (including the save performed by `Invoice.create`)
runs this hook: it recomputes `dueAmount` and then derives `status`. -/

/-- The pre-save hook of the Invoice model.  `now` is the instant at which
`new Date()` is evaluated inside the hook. -/
def invoicePreSave (now : Int) (inv : Invoice) : Invoice :=
  let dueAmount := inv.totalAmount - inv.amountPaid
  let status :=
    if dueAmount ≤ 0 then InvoiceStatus.paid
    else if inv.amountPaid > 0 then InvoiceStatus.partiallyPaid
    else if inv.dueDate < now then InvoiceStatus.overdue
    else InvoiceStatus.pending
  { inv with dueAmount := dueAmount, status := status }

/-- The `addPayment` instance method of the Invoice model (lines 138-143):
push the payment, add its amount to `amountPaid`, save (which runs the
pre-save hook). -/
def invoiceAddPayment (now : Int) (inv : Invoice) (p : Payment) : Invoice :=
  invoicePreSave now
    { inv with payments := inv.payments ++ [p], amountPaid := inv.amountPaid + p.amount }

/-- The status derivation rule exactly as worded by the spec (section 4.5):
dueAmount ≤ 0 ⇒ paid; else amountPaid > 0 ⇒ partially paid; else
dueDate < now ⇒ overdue; else pending.  Written from the spec so that the
code's hook can be compared against it. -/
def specStatusRule (now : Int) (dueAmount amountPaid : Rat) (dueDate : Int) : InvoiceStatus :=
  if dueAmount ≤ 0 then InvoiceStatus.paid
  else if amountPaid > 0 then InvoiceStatus.partiallyPaid
  else if dueDate < now then InvoiceStatus.overdue
  else InvoiceStatus.pending

/-! ## The admin status-override endpoint
(`updateInvoiceStatus`, src/controllers/invoiceController.js lines 597-618)

The endpoint validates that the requested status is one of the four enum
values (enforced here by the type `InvoiceStatus`), looks the invoice up,
assigns `invoice.status = status` and calls `invoice.save()` — and that
save runs the pre-save hook above. -/

/-- Response of the status-override endpoint. -/
inductive UpdateStatusResponse where
  | notFound
  | ok (invoice : Invoice)
deriving DecidableEq, Repr

/-- The `updateInvoiceStatus` controller. -/
def updateInvoiceStatus (db : DB) (invoiceId : Nat) (requested : InvoiceStatus)
    (now : Int) : UpdateStatusResponse × DB :=
  match db.invoices.find? (fun i => i.id == invoiceId) with
  | none => (UpdateStatusResponse.notFound, db)
  | some inv =>
      let saved := invoicePreSave now { inv with status := requested }
      (UpdateStatusResponse.ok saved,
       { db with invoices := db.invoices.map (fun i => if i.id == invoiceId then saved else i) })

/-! ## Claims C1 and C4 -/

/-- Claim C1: on every invoice save, the stored dueAmount equals
totalAmount − amountPaid, and the stored status is derived by the priority
rule (dueAmount ≤ 0 ⇒ paid; else amountPaid > 0 ⇒ partially paid; else
dueDate before now ⇒ overdue; else pending).  Every write of an invoice in
this development goes through `invoicePreSave`, exactly as every mongoose
`save()` runs the hook. -/
theorem invoice_save_due_and_status (now : Int) (inv : Invoice) :
    (invoicePreSave now inv).dueAmount = inv.totalAmount - inv.amountPaid ∧
    (invoicePreSave now inv).status =
      specStatusRule now (inv.totalAmount - inv.amountPaid) inv.amountPaid inv.dueDate := by
  exact ⟨rfl, rfl⟩

/-- A pending invoice over 100 units with nothing paid and a due date still
in the future, used to refute claim C4. -/
def invoiceC4 : Invoice :=
  { id := 1
    customer := 1
    invoiceNumber := "INV-25-09-0001"
    startDate := 0
    endDate := 29
    totalQuantity := 2
    totalAmount := 100
    amountPaid := 0
    dueAmount := 100
    status := InvoiceStatus.pending
    dueDate := 44
    items := []
    payments := [] }

/-- Store holding just `invoiceC4`. -/
def dbC4 : DB :=
  { customers := [], records := [], invoices := [invoiceC4], quantityUpdates := [] }

/-- Counterexample to claim C4: requesting the override status `paid` on a
pending, unpaid, not-yet-due invoice does not store `paid` — the save
re-derives the status and stores `pending`. -/
theorem updateInvoiceStatus_override_lost :
    ((updateInvoiceStatus dbC4 1 InvoiceStatus.paid 0).2.invoices.map Invoice.status
       = [InvoiceStatus.pending]) ∧
    InvoiceStatus.pending ≠ InvoiceStatus.paid := by
  refine ⟨?_, by decide⟩
  simp [updateInvoiceStatus, dbC4, invoiceC4, invoicePreSave]

/-- Claim C4 as amended: the status-override endpoint accepts any of the four
values and assigns it, but the save it performs triggers the Invoice
pre-save hook, which re-derives the stored status from dueAmount /
amountPaid / dueDate; the stored status (and the one returned) therefore
equals the derived value, independent of the requested one, and the
requested value persists only when it coincides with the derived one. -/
theorem updateInvoiceStatus_rederived (db : DB) (invoiceId : Nat)
    (requested : InvoiceStatus) (now : Int) (inv : Invoice)
    (hfind : db.invoices.find? (fun i => i.id == invoiceId) = some inv) :
    (updateInvoiceStatus db invoiceId requested now).1 =
      UpdateStatusResponse.ok (invoicePreSave now { inv with status := requested }) ∧
    (invoicePreSave now { inv with status := requested }).status =
      specStatusRule now (inv.totalAmount - inv.amountPaid) inv.amountPaid inv.dueDate := by
  refine ⟨?_, rfl⟩
  unfold updateInvoiceStatus
  rw [hfind]

/-- Witness for the amended claim C4 at the concrete store `dbC4`:
the hypothesis (the invoice is found) is discharged by evaluation. -/
theorem updateInvoiceStatus_rederived_witness :
    (updateInvoiceStatus dbC4 1 InvoiceStatus.paid 0).1 =
      UpdateStatusResponse.ok (invoicePreSave 0 { invoiceC4 with status := InvoiceStatus.paid }) ∧
    (invoicePreSave 0 { invoiceC4 with status := InvoiceStatus.paid }).status =
      specStatusRule 0 (invoiceC4.totalAmount - invoiceC4.amountPaid)
        invoiceC4.amountPaid invoiceC4.dueDate :=
  updateInvoiceStatus_rederived dbC4 1 InvoiceStatus.paid 0 invoiceC4
    (by simp [dbC4, invoiceC4])

/-! ## The daily record generator
(`createDailyRecords` in the record controller, src/controllers/systemConfigController.js
record section, lines 439-547)

The holiday lookup (`checkIfHoliday`) is an external oracle per the spec's
architecture; its fail-open result is the Bool parameter `todayIsHoliday`.
`today` is the day at hand (the code truncates `new Date()` to midnight and
filters adjustments by `startOfDay ≤ date ≤ endOfDay`, i.e. by that same
day, so day-precision dates make that filter `u.date == today`). -/

/-- In the source, `updates` is the ARRAY returned by `QuantityUpdate.find`,
and `updates.isAccept` reads a property that a JS array does not have,
yielding `undefined`; the strict comparison `undefined === false` is
`false`.  The skip condition of lines 476-479 therefore never holds,
whatever the adjustments' flags.  This constant is that condition,
translated by JS evaluation. -/
def updatesArrayIsAcceptEqFalse (_updates : List QuantityUpdate) : Bool :=
  false

/-- The per-line-item part of the generator loop (lines 491-511): look for an
adjustment with the same slot time, milk type and subcategory (the date and
customer were already fixed by the query); use its new quantity if one
exists — with no condition on its acceptance — and the schedule quantity
otherwise. -/
def buildSlotItems (updates : List QuantityUpdate) (slot : DeliverySlot) : List MilkItem :=
  slot.milkItems.map (fun milkItem =>
    let update := updates.find? (fun u =>
      u.time == slot.time && u.milkType == milkItem.milkType &&
        u.subcategory == milkItem.subcategory)
    let quantity :=
      match update with
      | some u => u.newQuantity
      | none => milkItem.quantity
    { milkType := milkItem.milkType
      subcategory := milkItem.subcategory
      quantity := quantity
      pricePerUnit := milkItem.pricePerUnit
      totalPrice := quantity * milkItem.pricePerUnit })

/-- One snapshot slot of the generated record (lines 486-518). -/
def buildRecordSlot (updates : List QuantityUpdate) (slot : DeliverySlot) : DeliverySlot :=
  let items := buildSlotItems updates slot
  { time := slot.time
    milkItems := items
    totalQuantity := items.foldl (fun s i => s + i.quantity) 0
    totalPrice := items.foldl (fun s i => s + i.totalPrice) 0 }

/-- The record built for one customer on one day (lines 481-530). -/
def buildDailyRecord (c : Customer) (today : Int) (updates : List QuantityUpdate) :
    DailyRecord :=
  let slots := c.deliverySchedule.map (buildRecordSlot updates)
  { customer := c.id
    date := today
    deliverySchedule := slots
    totalDailyQuantity := slots.foldl (fun s d => s + d.totalQuantity) 0
    totalDailyPrice := slots.foldl (fun s d => s + d.totalPrice) 0 }

/-- The (customer, day) key test of the generator's `Record.findOne`
existence check. -/
def recKey (cid : Nat) (today : Int) (r : DailyRecord) : Bool :=
  r.customer == cid && r.date == today

/-- The `QuantityUpdate.find` query of the generator: the customer's
adjustments dated on the day at hand. -/
def updatesFor (qus : List QuantityUpdate) (cid : Nat) (today : Int) :
    List QuantityUpdate :=
  qus.filter (fun u => u.customer == cid && u.date == today)

/-- The body of the per-customer loop of `createDailyRecords` (lines
462-534).  The accumulator carries the records collection (which the
`Record.findOne` existence check consults, since creates are awaited inside
the loop) and the list of records created by this run. -/
def dailyStep (qus : List QuantityUpdate) (today : Int)
    (acc : List DailyRecord × List DailyRecord) (c : Customer) :
    List DailyRecord × List DailyRecord :=
  let (records, created) := acc
  match records.find? (recKey c.id today) with
  | some _ => (records, created)
  | none =>
      let updates := updatesFor qus c.id today
      if updatesArrayIsAcceptEqFalse updates then (records, created)
      else
        let record := buildDailyRecord c today updates
        (records ++ [record], created ++ [record])

/-- The JSON body of the `createDailyRecords` endpoint: the holiday branch
returns success false with a message; the normal branch returns success
true with the count and the created records (`data`). -/
structure DailyRunResponse where
  success : Bool
  message : Option String
  count : Nat
  data : List DailyRecord
deriving DecidableEq, Repr

/-- The `createDailyRecords` controller. -/
def createDailyRecords (db : DB) (today : Int) (todayIsHoliday : Bool)
    (holidayName : String) : DailyRunResponse × DB :=
  if todayIsHoliday then
    ({ success := false
       message := some ("Records not created because today is a holiday: " ++ holidayName)
       count := 0
       data := [] }, db)
  else
    let activeCustomers := db.customers.filter (fun c => c.isActive)
    let result := activeCustomers.foldl (dailyStep db.quantityUpdates today) (db.records, [])
    ({ success := true, message := none, count := result.2.length, data := result.2 },
     { db with records := result.1 })

/-! ## Claims C2 and C3: concrete runs -/

/-- An active customer with a single morning line item (quantity 2, price
60). -/
def custC2 : Customer :=
  { id := 7
    customerNo := 7
    name := "c7"
    isActive := true
    deliverySchedule :=
      [ { time := SlotTime.morning
          milkItems :=
            [ { milkType := 1, subcategory := 2, quantity := 2, pricePerUnit := 60,
                totalPrice := 120 } ]
          totalQuantity := 2
          totalPrice := 120 } ]
    totalDailyQuantity := 2
    totalDailyPrice := 120
    advance := 0 }

/-- An adjustment for day 100 on that customer's line item, explicitly
rejected (status rejected, isAccept false), proposing quantity 5. -/
def rejectedUpdateC2 : QuantityUpdate :=
  { id := 1
    customer := 7
    date := 100
    time := SlotTime.morning
    oldQuantity := 2
    newQuantity := 5
    difference := 3
    reason := "rejected by admin"
    milkType := 1
    subcategory := 2
    isAccept := false
    status := AdjustStatus.statusRejected
    lastQuantity := 2 }

/-- Store for the C2 failing input. -/
def dbC2 : DB :=
  { customers := [custC2], records := [], invoices := [],
    quantityUpdates := [rejectedUpdateC2] }

/-- Claim C2, evaluated at the failing input: with an explicitly rejected
adjustment on file for (customer 7, day 100), the run does NOT skip the
customer — it creates a record, and that record even carries the rejected
adjustment's quantity 5 (total 300).  The skip that the code's own log
message announces (`Skipping record creation for ... due to ...`) never
executes, because the condition reads `isAccept` off the query-result
array. -/
theorem createDailyRecords_rejected_not_skipped :
    (createDailyRecords dbC2 100 false "").1.count = 1 ∧
    (createDailyRecords dbC2 100 false "").2.records =
      [ { customer := 7
          date := 100
          deliverySchedule :=
            [ { time := SlotTime.morning
                milkItems :=
                  [ { milkType := 1, subcategory := 2, quantity := 5, pricePerUnit := 60,
                      totalPrice := 300 } ]
                totalQuantity := 5
                totalPrice := 300 } ]
          totalDailyQuantity := 5
          totalDailyPrice := 300 } ] := by
  constructor
  · simp [createDailyRecords, dailyStep, recKey, updatesFor, dbC2, custC2,
      rejectedUpdateC2, buildDailyRecord, buildRecordSlot, buildSlotItems,
      updatesArrayIsAcceptEqFalse]
  · simp [createDailyRecords, dailyStep, recKey, updatesFor, dbC2, custC2,
      rejectedUpdateC2, buildDailyRecord, buildRecordSlot, buildSlotItems,
      updatesArrayIsAcceptEqFalse]
    norm_num

/-- A pending (not accepted) adjustment proposing quantity 7 on the same
line item. -/
def pendingUpdateC3 : QuantityUpdate :=
  { id := 2
    customer := 7
    date := 100
    time := SlotTime.morning
    oldQuantity := 2
    newQuantity := 7
    difference := 5
    reason := "more milk"
    milkType := 1
    subcategory := 2
    isAccept := false
    status := AdjustStatus.statusPending
    lastQuantity := 0 }

/-- Store for the C3 counterexample. -/
def dbC3 : DB :=
  { customers := [custC2], records := [], invoices := [],
    quantityUpdates := [pendingUpdateC3] }

/-- Counterexample to claim C3: the adjustment on file is pending — not
accepted — yet the generated record uses its quantity 7 instead of the
schedule default 2.  The lookup of the generator never tests the
adjustment's acceptance. -/
theorem createDailyRecords_pending_quantity_used :
    ((createDailyRecords dbC3 100 false "").2.records.map
        (fun r => r.deliverySchedule.map (fun s => s.milkItems.map (fun i => i.quantity))))
      = [[[7]]] ∧
    (7 : Rat) ≠ 2 := by
  constructor
  · simp [createDailyRecords, dailyStep, recKey, updatesFor, dbC3, custC2,
      pendingUpdateC3, buildDailyRecord, buildRecordSlot, buildSlotItems,
      updatesArrayIsAcceptEqFalse]
  · norm_num

/-! ## Fold lemmas about the generator loop -/

/-- Case equation for one loop step: either the existence check hits and
nothing happens, or the freshly built record is appended (the rejected-skip
branch is unreachable, see `updatesArrayIsAcceptEqFalse`). -/
theorem dailyStep_eq (qus : List QuantityUpdate) (today : Int)
    (records created : List DailyRecord) (c : Customer) :
    dailyStep qus today (records, created) c =
      if (records.find? (recKey c.id today)).isSome then (records, created)
      else
        (records ++ [buildDailyRecord c today (updatesFor qus c.id today)],
         created ++ [buildDailyRecord c today (updatesFor qus c.id today)]) := by
  unfold dailyStep updatesArrayIsAcceptEqFalse
  cases h : records.find? (recKey c.id today) <;> simp [h]

/-- The existence check succeeds exactly when the keyed record count is
positive. -/
theorem find?_isSome_iff_countP_pos (p : DailyRecord → Bool) (l : List DailyRecord) :
    (l.find? p).isSome ↔ 0 < l.countP p := by
  rw [List.find?_isSome, List.countP_pos_iff]

/-- A freshly built record matches the key of its customer id and day. -/
theorem recKey_buildDailyRecord (cid : Nat) (today : Int) (c : Customer)
    (updates : List QuantityUpdate) :
    recKey cid today (buildDailyRecord c today updates) = (c.id == cid) := by
  simp [recKey, buildDailyRecord]

/-- Records already in the collection survive the whole loop. -/
theorem mem_foldl_dailyStep (qus : List QuantityUpdate) (today : Int)
    (l : List Customer) (records created : List DailyRecord) (r : DailyRecord)
    (hr : r ∈ records) :
    r ∈ (l.foldl (dailyStep qus today) (records, created)).1 := by
  induction l generalizing records created with
  | nil => simpa using hr
  | cons c rest ih =>
      rw [List.foldl_cons, dailyStep_eq]
      by_cases h : (records.find? (recKey c.id today)).isSome
      · rw [if_pos h]; exact ih records created hr
      · rw [if_neg h]; exact ih _ _ (List.mem_append_left _ hr)

/-- The keyed count never decreases along the loop. -/
theorem countP_foldl_dailyStep_mono (qus : List QuantityUpdate) (today : Int)
    (l : List Customer) (records created : List DailyRecord) (p : DailyRecord → Bool) :
    records.countP p ≤ ((l.foldl (dailyStep qus today) (records, created)).1.countP p) := by
  induction l generalizing records created with
  | nil => exact le_refl _
  | cons c rest ih =>
      rw [List.foldl_cons, dailyStep_eq]
      by_cases h : (records.find? (recKey c.id today)).isSome
      · rw [if_pos h]; exact ih records created
      · rw [if_neg h]
        refine le_trans ?_ (ih _ _)
        rw [List.countP_append]
        exact Nat.le_add_right _ _

/-- Once a keyed record exists, the loop leaves the keyed count unchanged:
the key's customer skips (the existence check hits) and other customers
append records with a different customer id. -/
theorem countP_foldl_dailyStep_of_pos (qus : List QuantityUpdate) (today : Int)
    (l : List Customer) (records created : List DailyRecord) (cid : Nat)
    (hpos : 0 < records.countP (recKey cid today)) :
    ((l.foldl (dailyStep qus today) (records, created)).1.countP (recKey cid today)) =
      records.countP (recKey cid today) := by
  induction l generalizing records created with
  | nil => rfl
  | cons c rest ih =>
      rw [List.foldl_cons, dailyStep_eq]
      by_cases h : (records.find? (recKey c.id today)).isSome
      · rw [if_pos h]; exact ih records created hpos
      · rw [if_neg h]
        have hcid : (c.id == cid) = false := by
          by_contra hne
          apply h
          rw [find?_isSome_iff_countP_pos]
          have : c.id = cid := by
            cases hcb : c.id == cid
            · exact absurd hcb hne
            · simpa using hcb
          rw [this]
          exact hpos
        have happ : (records ++ [buildDailyRecord c today (updatesFor qus c.id today)]).countP
            (recKey cid today) = records.countP (recKey cid today) := by
          rw [List.countP_append]
          simp [recKey_buildDailyRecord, hcid]
        rw [ih _ _ (by rw [happ]; exact hpos), happ]

/-- If customer `c` appears in the loop's list, no other list member shares
its id, and no keyed record exists yet, then the loop creates exactly one
record for `(c.id, today)` — the one built from `c`'s schedule and the
day's adjustments — and that record is in the final collection. -/
theorem foldl_dailyStep_creates_unique (qus : List QuantityUpdate) (today : Int)
    (l : List Customer) (records created : List DailyRecord) (c : Customer)
    (hc : c ∈ l) (huniq : ∀ x ∈ l, x.id = c.id → x = c)
    (h0 : records.countP (recKey c.id today) = 0) :
    ((l.foldl (dailyStep qus today) (records, created)).1.countP (recKey c.id today)) = 1 ∧
    buildDailyRecord c today (updatesFor qus c.id today) ∈
      (l.foldl (dailyStep qus today) (records, created)).1 := by
  induction l generalizing records created with
  | nil => cases hc
  | cons x rest ih =>
      rw [List.foldl_cons, dailyStep_eq]
      by_cases hx : x.id = c.id
      · have hxc : x = c := huniq x (List.mem_cons_self x rest) hx
        subst hxc
        have hnone : ¬(records.find? (recKey x.id today)).isSome := by
          rw [find?_isSome_iff_countP_pos, h0]
          exact lt_irrefl 0
        rw [if_neg hnone]
        have happ : (records ++ [buildDailyRecord x today (updatesFor qus x.id today)]).countP
            (recKey x.id today) = 1 := by
          rw [List.countP_append]
          simp [recKey_buildDailyRecord, h0]
        constructor
        · rw [countP_foldl_dailyStep_of_pos qus today rest _ _ x.id (by rw [happ]; exact Nat.zero_lt_one)]
          exact happ
        · exact mem_foldl_dailyStep qus today rest _ _ _
            (List.mem_append_right _ (List.mem_singleton_self _))
      · have hcr : c ∈ rest := by
          rcases List.mem_cons.mp hc with hce | hcr
          · exact absurd (by rw [hce]) hx
          · exact hcr
        have huniq' : ∀ y ∈ rest, y.id = c.id → y = c :=
          fun y hy => huniq y (List.mem_cons_of_mem x hy)
        by_cases h : (records.find? (recKey x.id today)).isSome
        · rw [if_pos h]; exact ih _ _ hcr huniq' h0
        · rw [if_neg h]
          refine ih _ _ hcr huniq' ?_
          rw [List.countP_append]
          have hxb : (x.id == c.id) = false := by
            cases hcb : x.id == c.id
            · rfl
            · exact absurd (by simpa using hcb) hx
          simp [recKey_buildDailyRecord, hxb, h0]

/-- Every customer of the loop's list ends up with at least one keyed
record. -/
theorem foldl_dailyStep_hasRecord (qus : List QuantityUpdate) (today : Int)
    (l : List Customer) (records created : List DailyRecord) (c : Customer)
    (hc : c ∈ l) :
    0 < ((l.foldl (dailyStep qus today) (records, created)).1.countP (recKey c.id today)) := by
  induction l generalizing records created with
  | nil => cases hc
  | cons x rest ih =>
      rw [List.foldl_cons, dailyStep_eq]
      rcases List.mem_cons.mp hc with hce | hcr
      · subst hce
        by_cases h : (records.find? (recKey c.id today)).isSome
        · rw [if_pos h]
          exact lt_of_lt_of_le ((find?_isSome_iff_countP_pos _ _).mp h)
            (countP_foldl_dailyStep_mono qus today rest _ _ _)
        · rw [if_neg h]
          refine lt_of_lt_of_le ?_ (countP_foldl_dailyStep_mono qus today rest _ _ _)
          rw [List.countP_append]
          simp [recKey_buildDailyRecord]
      · by_cases h : (records.find? (recKey x.id today)).isSome
        · rw [if_pos h]; exact ih _ _ hcr
        · rw [if_neg h]; exact ih _ _ hcr

/-- When every customer of the list already has a keyed record, the loop is
the identity: every step skips. -/
theorem foldl_dailyStep_identity (qus : List QuantityUpdate) (today : Int)
    (l : List Customer) (records created : List DailyRecord)
    (h : ∀ c ∈ l, 0 < records.countP (recKey c.id today)) :
    l.foldl (dailyStep qus today) (records, created) = (records, created) := by
  induction l with
  | nil => rfl
  | cons x rest ih =>
      rw [List.foldl_cons, dailyStep_eq,
        if_pos ((find?_isSome_iff_countP_pos _ _).mpr (h x (List.mem_cons_self x rest)))]
      exact ih (fun c hc => h c (List.mem_cons_of_mem x hc))

/-! ## Claims C3 (amended) and C7 -/

/-- The effective-quantity resolution as amended: the adjustment's new
quantity whenever ANY adjustment exists for the exact (date, slot, milk
type, subcategory) key — with no condition on its acceptance — and the
schedule's default quantity otherwise.  Worded from the amended claim, to
be compared with the generator's per-item loop. -/
def effectiveQuantityAmended (updates : List QuantityUpdate) (slotTime : SlotTime)
    (item : MilkItem) : Rat :=
  match updates.find? (fun u =>
      u.time == slotTime && u.milkType == item.milkType &&
        u.subcategory == item.subcategory) with
  | some u => u.newQuantity
  | none => item.quantity

/-- Claim C3 as amended: for an active customer with no record yet for the
day, the run creates exactly one record for them, and each of its line
items carries the effective quantity of `effectiveQuantityAmended` — the
new quantity of whatever adjustment matches the exact key, accepted or
not, and the schedule default when none matches. -/
theorem createDailyRecords_effective_quantities (db : DB) (today : Int) (c : Customer)
    (hc : c ∈ db.customers) (hact : c.isActive = true)
    (huniq : ∀ x ∈ db.customers, x.id = c.id → x = c)
    (h0 : db.records.countP (recKey c.id today) = 0) :
    buildDailyRecord c today (updatesFor db.quantityUpdates c.id today) ∈
      (createDailyRecords db today false "").2.records ∧
    ((createDailyRecords db today false "").2.records.countP (recKey c.id today)) = 1 ∧
    (buildDailyRecord c today (updatesFor db.quantityUpdates c.id today)).deliverySchedule.map
        (fun s => s.milkItems.map (fun i => i.quantity)) =
      c.deliverySchedule.map (fun slot =>
        slot.milkItems.map (fun item =>
          effectiveQuantityAmended (updatesFor db.quantityUpdates c.id today) slot.time item)) := by
  have hmem : c ∈ db.customers.filter (fun x => x.isActive) :=
    List.mem_filter.mpr ⟨hc, hact⟩
  have huniq' : ∀ x ∈ db.customers.filter (fun x => x.isActive), x.id = c.id → x = c :=
    fun x hx => huniq x (List.mem_filter.mp hx).1
  have hkey := foldl_dailyStep_creates_unique db.quantityUpdates today
    (db.customers.filter (fun x => x.isActive)) db.records [] c hmem huniq' h0
  refine ⟨?_, ?_, ?_⟩
  · simpa [createDailyRecords] using hkey.2
  · simpa [createDailyRecords] using hkey.1
  · simp only [buildDailyRecord, List.map_map]
    refine List.map_congr_left (fun slot _ => ?_)
    simp only [Function.comp, buildRecordSlot, buildSlotItems, List.map_map]
    refine List.map_congr_left (fun item _ => ?_)
    rfl

/-- Witness for the amended claim C3: the concrete store `dbC3` (customer 7,
morning quantity 2, a pending adjustment proposing 7) satisfies every
hypothesis, and the theorem applies. -/
theorem createDailyRecords_effective_quantities_witness :
    buildDailyRecord custC2 100 (updatesFor dbC3.quantityUpdates custC2.id 100) ∈
      (createDailyRecords dbC3 100 false "").2.records ∧
    ((createDailyRecords dbC3 100 false "").2.records.countP (recKey custC2.id 100)) = 1 ∧
    (buildDailyRecord custC2 100 (updatesFor dbC3.quantityUpdates custC2.id 100)).deliverySchedule.map
        (fun s => s.milkItems.map (fun i => i.quantity)) =
      custC2.deliverySchedule.map (fun slot =>
        slot.milkItems.map (fun item =>
          effectiveQuantityAmended (updatesFor dbC3.quantityUpdates custC2.id 100) slot.time item)) :=
  createDailyRecords_effective_quantities dbC3 100 custC2
    (List.mem_singleton_self _) rfl
    (fun x hx _ => by simpa [dbC3] using hx) rfl

/-- Claim C7 as amended: running the daily generation twice for the same
day creates exactly one record per (customer, day) — after the first run
the customer has exactly one — and the second run finds the existing
records, creates nothing (it returns the whole store unchanged), and
answers success with count 0 and no message: already-satisfied, not an
error, but also with no explicit "already exists" report. -/
theorem createDailyRecords_idempotent (db : DB) (today : Int) (c : Customer)
    (hc : c ∈ db.customers) (hact : c.isActive = true)
    (huniq : ∀ x ∈ db.customers, x.id = c.id → x = c)
    (h0 : db.records.countP (recKey c.id today) = 0) :
    (((createDailyRecords db today false "").2.records.countP (recKey c.id today)) = 1) ∧
    (createDailyRecords (createDailyRecords db today false "").2 today false "") =
      ({ success := true, message := none, count := 0, data := [] },
       (createDailyRecords db today false "").2) := by
  have hmem : c ∈ db.customers.filter (fun x => x.isActive) :=
    List.mem_filter.mpr ⟨hc, hact⟩
  have huniq' : ∀ x ∈ db.customers.filter (fun x => x.isActive), x.id = c.id → x = c :=
    fun x hx => huniq x (List.mem_filter.mp hx).1
  constructor
  · simpa [createDailyRecords] using
      (foldl_dailyStep_creates_unique db.quantityUpdates today
        (db.customers.filter (fun x => x.isActive)) db.records [] c hmem huniq' h0).1
  · have hall : ∀ x ∈ db.customers.filter (fun y => y.isActive),
        0 < ((createDailyRecords db today false "").2.records.countP (recKey x.id today)) := by
      intro x hx
      simpa [createDailyRecords] using
        foldl_dailyStep_hasRecord db.quantityUpdates today
          (db.customers.filter (fun y => y.isActive)) db.records [] x hx
    show createDailyRecords
        { db with records :=
            ((db.customers.filter (fun x => x.isActive)).foldl
              (dailyStep db.quantityUpdates today) (db.records, [])).1 } today false "" = _
    simp only [createDailyRecords, if_neg Bool.false_ne_true]
    rw [foldl_dailyStep_identity db.quantityUpdates today _ _ _
      (by intro x hx; simpa [createDailyRecords] using hall x hx)]
    rfl

/-- Store for the C7 concrete runs: one active customer, no records, no
adjustments. -/
def dbC7 : DB :=
  { customers := [custC2], records := [], invoices := [], quantityUpdates := [] }

/-- Counterexample to claim C7 as frozen: the second run's entire response
is success with count 0, empty data and no message — it creates nothing and
raises no error, but nothing in it reports "already exists" or "existing"
for the skipped customer. -/
theorem createDailyRecords_second_run_reports_nothing :
    (createDailyRecords (createDailyRecords dbC7 100 false "").2 100 false "").1 =
      { success := true, message := none, count := 0, data := [] } := by
  simp [createDailyRecords, dailyStep, recKey, updatesFor, dbC7, custC2,
    buildDailyRecord, buildRecordSlot, buildSlotItems, updatesArrayIsAcceptEqFalse]

/-- Witness for the amended claim C7 at the concrete store `dbC7`. -/
theorem createDailyRecords_idempotent_witness :
    (((createDailyRecords dbC7 100 false "").2.records.countP (recKey custC2.id 100)) = 1) ∧
    (createDailyRecords (createDailyRecords dbC7 100 false "").2 100 false "") =
      ({ success := true, message := none, count := 0, data := [] },
       (createDailyRecords dbC7 100 false "").2) :=
  createDailyRecords_idempotent dbC7 100 custC2
    (List.mem_singleton_self _) rfl
    (fun x hx _ => by simpa [dbC7] using hx) rfl

/-! ## Customer persistence

The Customer model's pre-save hook (src/models/Customer.js lines 145-168)
rejects a schedule with two entries for the same time slot and recomputes
the denormalized totals.  (The other hooks — password hashing, username
defaulting, customer-number assignment — touch fields outside this
embedding.) -/

/-- The slot-uniqueness validation of the hook: the number of distinct slot
times equals the number of slots (`[...new Set(times)].length ===
times.length`). -/
def scheduleValid (c : Customer) : Bool :=
  ((c.deliverySchedule.map (fun d => d.time)).dedup.length ==
    (c.deliverySchedule.map (fun d => d.time)).length)

/-- Recomputation of one slot's denormalized totals. -/
def recalcSlot (d : DeliverySlot) : DeliverySlot :=
  let items := d.milkItems.map (fun item =>
    { item with totalPrice := item.quantity * item.pricePerUnit })
  { d with milkItems := items
           totalQuantity := items.foldl (fun s i => s + i.quantity) 0
           totalPrice := items.foldl (fun s i => s + i.totalPrice) 0 }

/-- Recomputation of the customer's denormalized totals performed by the
hook. -/
def recalcCustomer (c : Customer) : Customer :=
  let slots := c.deliverySchedule.map recalcSlot
  { c with deliverySchedule := slots
           totalDailyQuantity := slots.foldl (fun s d => s + d.totalQuantity) 0
           totalDailyPrice := slots.foldl (fun s d => s + d.totalPrice) 0 }

/-- The Customer pre-save hook: `none` means the save is rejected with a
validation error. -/
def customerPreSave (c : Customer) : Option Customer :=
  if scheduleValid c then some (recalcCustomer c) else none

/-- `Customer.findById`. -/
def findCustomer (db : DB) (cid : Nat) : Option Customer :=
  db.customers.find? (fun c => c.id == cid)

/-- Writing a saved customer document back into the store (by id). -/
def putCustomer (db : DB) (c : Customer) : DB :=
  { db with customers := db.customers.map (fun x => if x.id == c.id then c else x) }

/-- Writing a saved invoice document back into the store (by id). -/
def putInvoice (db : DB) (inv : Invoice) : DB :=
  { db with invoices := db.invoices.map (fun x => if x.id == inv.id then inv else x) }

/-! ## Invoice generation
(`generateCustomerMonthlyInvoice`, src/controllers/invoiceController.js
lines 83-267)

`startDate` and `endDate` are the first and last day of the requested
month (the calendar arithmetic of `new Date(year, month-1, 1)` and
`new Date(year, month, 0)` stays outside the embedding); the records query
bound `$lt` first-day-of-next-month is `≤ endDate` at day precision.
`invoiceNumber` and `newInvoiceId` stand for the outputs of the
`generateInvoiceNumber` helper and of document-id allocation: that helper
only fabricates the human-readable string from the latest invoice's number
and is not modeled further. -/

/-- The period-overlap query on invoices (lines 127-131): same customer,
`startDate ≤ requested end` and `endDate ≥ requested start` — a range
intersection test, not an equality test. -/
def overlapsPeriod (custId : Nat) (startDate endDate : Int) (i : Invoice) : Bool :=
  i.customer == custId && decide (i.startDate ≤ endDate) && decide (startDate ≤ i.endDate)

/-- The records query of the generation endpoint (lines 142-148). -/
def loadPeriodRecords (db : DB) (custId : Nat) (startDate endDate : Int) :
    List DailyRecord :=
  db.records.filter (fun r =>
    r.customer == custId && decide (startDate ≤ r.date) && decide (r.date ≤ endDate))

/-- `totalQuantity` as accumulated by the loop of lines 159-168. -/
def periodTotalQuantity (db : DB) (custId : Nat) (startDate endDate : Int) : Rat :=
  (loadPeriodRecords db custId startDate endDate).foldl
    (fun s r => s + r.totalDailyQuantity) 0

/-- `totalAmount` as accumulated by the loop of lines 159-168. -/
def periodTotalAmount (db : DB) (custId : Nat) (startDate endDate : Int) : Rat :=
  (loadPeriodRecords db custId startDate endDate).foldl
    (fun s r => s + r.totalDailyPrice) 0

/-- The `items` array built by the loop of lines 159-168. -/
def periodItems (db : DB) (custId : Nat) (startDate endDate : Int) : List InvoiceItem :=
  (loadPeriodRecords db custId startDate endDate).map (fun r =>
    { date := r.date
      deliverySchedule := r.deliverySchedule
      totalDailyQuantity := r.totalDailyQuantity
      totalDailyPrice := r.totalDailyPrice })

/-- Response of the invoice generation endpoint. -/
inductive GenInvoiceResponse where
  | badRequest (msg : String)
  | customerNotFound
  | conflictExisting (invoiceId : Nat) (invoiceNumber : String)
  | noRecords
  | serverError
  | updatedOk (invoice : Invoice)
  | createdOk (invoice : Invoice) (advanceUsed : Rat)
deriving DecidableEq, Repr

/-- Application of the customer's credit balance to a new invoice (lines
200-231).  Returns (dueAmount, amountPaid, payments, advanceUsed, the
customer to be saved — `some` exactly when the source's
`if (customer.advance && customer.advance > 0)` branch runs and executes
`await customer.save()`). -/
def applyAdvance (now : Int) (customer : Customer) (totalAmount : Rat) :
    Rat × Rat × List Payment × Rat × Option Customer :=
  if 0 < customer.advance then
    if totalAmount ≤ customer.advance then
      (0, totalAmount,
       [{ amount := totalAmount, paymentDate := now, paymentMethod := PaymentMethod.advance,
          transactionId := none, notes := some "Advance applied from previous overpayment" }],
       totalAmount, some { customer with advance := customer.advance - totalAmount })
    else
      (totalAmount - customer.advance, customer.advance,
       [{ amount := customer.advance, paymentDate := now, paymentMethod := PaymentMethod.advance,
          transactionId := none, notes := some "Advance applied from previous overpayment" }],
       customer.advance, some { customer with advance := 0 })
  else (totalAmount, 0, [], 0, none)

/-- The initial status computed before `Invoice.create` (lines 233-238). -/
def initialStatus (amountPaid totalAmount : Rat) : InvoiceStatus :=
  if totalAmount ≤ amountPaid then InvoiceStatus.paid
  else if 0 < amountPaid then InvoiceStatus.partiallyPaid
  else InvoiceStatus.pending

/-- The create-new-invoice branch (lines 192-263): due date is period end
plus the fixed 15-day grace window; the advance is applied and the customer
saved when consumed; `Invoice.create` runs the pre-save hook and the
explicit `invoice.save()` runs it a second time. -/
def createNewInvoice (db : DB) (customer : Customer) (custId : Nat)
    (startDate endDate : Int) (totalQuantity totalAmount : Rat)
    (items : List InvoiceItem) (invoiceNumber : String) (newInvoiceId : Nat)
    (now : Int) : GenInvoiceResponse × DB :=
  let dueDate := endDate + 15
  match applyAdvance now customer totalAmount with
  | (dueAmount, amountPaid, payments, advanceUsed, customerToSave) =>
      let savedStore : Option DB :=
        match customerToSave with
        | none => some db
        | some ca => (customerPreSave ca).map (fun saved => putCustomer db saved)
      match savedStore with
      | none => (GenInvoiceResponse.serverError, db)
      | some db1 =>
          let base : Invoice :=
            { id := newInvoiceId
              customer := custId
              invoiceNumber := invoiceNumber
              startDate := startDate
              endDate := endDate
              totalQuantity := totalQuantity
              totalAmount := totalAmount
              amountPaid := amountPaid
              dueAmount := dueAmount
              status := initialStatus amountPaid totalAmount
              dueDate := dueDate
              items := items
              payments := payments }
          let invoice := invoicePreSave now (invoicePreSave now base)
          (GenInvoiceResponse.createdOk invoice advanceUsed,
           { db1 with invoices := db1.invoices ++ [invoice] })

/-- The update-in-place branch (lines 173-191): totals, items, dueAmount
and endDate are overwritten and the invoice saved; credit is not reapplied
and payments are untouched. -/
def updateExistingInvoice (db : DB) (e : Invoice) (totalQuantity totalAmount : Rat)
    (items : List InvoiceItem) (endDate : Int) (now : Int) :
    GenInvoiceResponse × DB :=
  let updated := invoicePreSave now
    { e with totalQuantity := totalQuantity
             totalAmount := totalAmount
             items := items
             dueAmount := totalAmount - e.amountPaid
             endDate := endDate }
  (GenInvoiceResponse.updatedOk updated, putInvoice db updated)

/-- The `generateCustomerMonthlyInvoice` controller.  (The commented-out
current-month guard of lines 101-106 is dead code and not modeled; the
records are summed in date order, which does not affect the totals.) -/
def generateCustomerMonthlyInvoice (db : DB) (custId : Nat) (month year : Int)
    (startDate endDate : Int) (updateExisting : Bool) (invoiceNumber : String)
    (newInvoiceId : Nat) (now : Int) : GenInvoiceResponse × DB :=
  if month == 0 || year == 0 then
    (GenInvoiceResponse.badRequest "Month and year are required", db)
  else if month < 1 ∨ 12 < month then
    (GenInvoiceResponse.badRequest "Invalid month", db)
  else
    match findCustomer db custId with
    | none => (GenInvoiceResponse.customerNotFound, db)
    | some customer =>
        match db.invoices.find? (overlapsPeriod custId startDate endDate) with
        | some e =>
            if updateExisting then
              if (loadPeriodRecords db custId startDate endDate).isEmpty then
                (GenInvoiceResponse.noRecords, db)
              else
                updateExistingInvoice db e
                  (periodTotalQuantity db custId startDate endDate)
                  (periodTotalAmount db custId startDate endDate)
                  (periodItems db custId startDate endDate)
                  endDate now
            else (GenInvoiceResponse.conflictExisting e.id e.invoiceNumber, db)
        | none =>
            if (loadPeriodRecords db custId startDate endDate).isEmpty then
              (GenInvoiceResponse.noRecords, db)
            else
              createNewInvoice db customer custId startDate endDate
                (periodTotalQuantity db custId startDate endDate)
                (periodTotalAmount db custId startDate endDate)
                (periodItems db custId startDate endDate)
                invoiceNumber newInvoiceId now

/-! ## Adding a payment
(`addPaymentToInvoice`, src/controllers/invoiceController.js lines 623-702)

The transaction-id auto-generation of lines 640-669 only fabricates the
opaque `{year}_{customerNo}_{sequence}` string attached to the payment; the
resulting id is the `transactionId` argument here. -/

/-- Response of the add-payment endpoint. -/
inductive PaymentResponse where
  | badRequest (msg : String)
  | invoiceNotFound
  | serverError
  | ok (invoice : Invoice)
deriving DecidableEq, Repr

/-- The `addPaymentToInvoice` controller: validate the amount, cap the
applied portion at the invoice's current due amount, append the payment
(which saves the invoice and re-runs its pre-save hook), and credit any
excess to the customer's advance balance. -/
def addPaymentToInvoice (db : DB) (invoiceId : Nat) (amount : Rat)
    (method : PaymentMethod) (transactionId : Option String)
    (notes : Option String) (now : Int) : PaymentResponse × DB :=
  if amount ≤ 0 then
    (PaymentResponse.badRequest "Valid payment amount is required", db)
  else
    match db.invoices.find? (fun i => i.id == invoiceId) with
    | none => (PaymentResponse.invoiceNotFound, db)
    | some inv =>
        let overpaidAmount := if inv.dueAmount < amount then amount - inv.dueAmount else 0
        let paymentToApply := min amount inv.dueAmount
        let payment : Payment :=
          { amount := paymentToApply
            paymentDate := now
            paymentMethod := method
            transactionId := transactionId
            notes := notes }
        let updated := invoiceAddPayment now inv payment
        let db1 := putInvoice db updated
        if 0 < overpaidAmount then
          match findCustomer db1 inv.customer with
          | none => (PaymentResponse.serverError, db1)
          | some customer =>
              match customerPreSave { customer with advance := customer.advance + overpaidAmount } with
              | none => (PaymentResponse.serverError, db1)
              | some saved => (PaymentResponse.ok updated, putCustomer db1 saved)
        else (PaymentResponse.ok updated, db1)

/-! ## Credit/advance endpoints
(src/controllers/customerController.js lines 477-517) -/

/-- Response of the advance endpoints. -/
inductive AdvanceResponse where
  | badRequest (msg : String)
  | customerNotFound
  | serverError
  | ok (customer : Customer)
deriving DecidableEq, Repr

/-- `createAdvancePayment` (lines 477-483): adds the submitted amount to
the balance with NO validation of any kind; an unresolved customer id makes
the handler crash into the tryCatch wrapper (500). -/
def createAdvancePayment (db : DB) (customerId : Nat) (amount : Rat) :
    AdvanceResponse × DB :=
  match findCustomer db customerId with
  | none => (AdvanceResponse.serverError, db)
  | some customer =>
      match customerPreSave { customer with advance := customer.advance + amount } with
      | none => (AdvanceResponse.serverError, db)
      | some saved => (AdvanceResponse.ok saved, putCustomer db saved)

/-- `updateAdvanceAmount` (lines 488-504): rejects a negative (or
non-numeric, not representable here) amount with a 400 Invalid amount. -/
def updateAdvanceAmount (db : DB) (customerId : Nat) (amount : Rat) :
    AdvanceResponse × DB :=
  if amount < 0 then (AdvanceResponse.badRequest "Invalid amount", db)
  else
    match findCustomer db customerId with
    | none => (AdvanceResponse.customerNotFound, db)
    | some customer =>
        match customerPreSave { customer with advance := amount } with
        | none => (AdvanceResponse.serverError, db)
        | some saved => (AdvanceResponse.ok saved, putCustomer db saved)

/-- `clearAdvanceAmount` (lines 509-517): resets the balance to zero. -/
def clearAdvanceAmount (db : DB) (customerId : Nat) : AdvanceResponse × DB :=
  match findCustomer db customerId with
  | none => (AdvanceResponse.customerNotFound, db)
  | some customer =>
      match customerPreSave { customer with advance := 0 } with
      | none => (AdvanceResponse.serverError, db)
      | some saved => (AdvanceResponse.ok saved, putCustomer db saved)

/-! ## Quantity adjustment upsert
(`updateCustomerQuantity`, src/controllers/categoryController.js lines
162-268) -/

/-- The request body; `none` stands for a missing (JS-falsy) field. -/
structure QuantityUpdateRequest where
  customerId : Option Nat
  date : Option Int
  time : Option SlotTime
  milkType : Option Nat
  subcategory : Option Nat
  newQuantity : Option Rat
  reason : Option String
  isAccept : Option Bool
deriving DecidableEq, Repr

/-- Response of the quantity-adjustment upsert. -/
inductive QuantityUpdateResponse where
  | badRequest
  | customerNotFound
  | noSlot
  | noItem
  | ok (update : QuantityUpdate) (deliverySchedule : List DeliverySlot)
deriving DecidableEq, Repr

/-- Replace the first element satisfying `p` (JS mutates the object
returned by `find`). -/
def replaceFirst (p : α → Bool) (f : α → α) : List α → List α
  | [] => []
  | x :: xs => if p x then f x :: xs else x :: replaceFirst p f xs

/-- The in-memory mutation of the fetched customer document (lines
205-214): the found line item's quantity and total are overwritten and the
found slot's totals recomputed — on the in-memory document only, for the
response; the customer is never saved. -/
def mutatedScheduleView (schedule : List DeliverySlot) (time : SlotTime)
    (milkType subcategory : Nat) (newQuantity : Rat) : List DeliverySlot :=
  replaceFirst (fun d => d.time == time)
    (fun d =>
      let items := replaceFirst
        (fun item => item.milkType == milkType && item.subcategory == subcategory)
        (fun item =>
          { item with quantity := newQuantity, totalPrice := newQuantity * item.pricePerUnit })
        d.milkItems
      { d with milkItems := items
               totalQuantity := items.foldl (fun s i => s + i.quantity) 0
               totalPrice := items.foldl (fun s i => s + i.totalPrice) 0 })
    schedule

/-- The `updateCustomerQuantity` controller: validate presence of every
field (an empty reason string is falsy in JS and rejected too), resolve
customer, slot and line item, then upsert the adjustment by its composite
key — overwriting quantity, delta, reason and resetting the status to
pending on an existing key (`isAccept: "false"` casts to false), creating
the document otherwise (`isAccept` taken from the body, schema default
false). -/
def updateCustomerQuantity (db : DB) (req : QuantityUpdateRequest)
    (newUpdateId : Nat) : QuantityUpdateResponse × DB :=
  match req.customerId, req.date, req.time, req.milkType, req.subcategory,
      req.newQuantity, req.reason with
  | some customerId, some date, some time, some milkType, some subcategory,
      some newQuantity, some reason =>
      if reason == "" then (QuantityUpdateResponse.badRequest, db)
      else
        match findCustomer db customerId with
        | none => (QuantityUpdateResponse.customerNotFound, db)
        | some customer =>
            match customer.deliverySchedule.find? (fun d => d.time == time) with
            | none => (QuantityUpdateResponse.noSlot, db)
            | some delivery =>
                match delivery.milkItems.find? (fun item =>
                    item.milkType == milkType && item.subcategory == subcategory) with
                | none => (QuantityUpdateResponse.noItem, db)
                | some milkItem =>
                    let originalQuantity := milkItem.quantity
                    let difference := newQuantity - originalQuantity
                    let view := mutatedScheduleView customer.deliverySchedule time
                      milkType subcategory newQuantity
                    match db.quantityUpdates.find? (fun u =>
                        u.customer == customerId && u.date == date && u.time == time &&
                          u.milkType == milkType && u.subcategory == subcategory) with
                    | some e =>
                        let updated :=
                          { e with oldQuantity := originalQuantity
                                   newQuantity := newQuantity
                                   difference := difference
                                   reason := reason
                                   status := AdjustStatus.statusPending
                                   isAccept := false }
                        let newLedger :=
                          db.quantityUpdates.map (fun u => if u.id == e.id then updated else u)
                        (QuantityUpdateResponse.ok updated view,
                         { db with quantityUpdates := newLedger })
                    | none =>
                        let created : QuantityUpdate :=
                          { id := newUpdateId
                            customer := customerId
                            date := date
                            time := time
                            oldQuantity := originalQuantity
                            newQuantity := newQuantity
                            difference := difference
                            reason := reason
                            milkType := milkType
                            subcategory := subcategory
                            isAccept := req.isAccept.getD false
                            status := AdjustStatus.statusPending
                            lastQuantity := 0 }
                        (QuantityUpdateResponse.ok created view,
                         { db with quantityUpdates := db.quantityUpdates ++ [created] })
  | _, _, _, _, _, _, _ => (QuantityUpdateResponse.badRequest, db)

/-! ## Store helper lemmas -/

/-- Replacing a customer by id and then finding that id yields the
replacement, provided some customer with the id was present. -/
theorem find?_replace_by_id (l : List Customer) (c : Customer) (cid : Nat)
    (hid : c.id = cid) (h : ∃ x ∈ l, (x.id == cid) = true) :
    (l.map (fun x => if x.id == c.id then c else x)).find? (fun x => x.id == cid) =
      some c := by
  induction l with
  | nil => simp at h
  | cons y ys ih =>
      by_cases hy : (y.id == cid) = true
      · have hyc : (y.id == c.id) = true := by rw [hid]; exact hy
        have hcc : (c.id == cid) = true := by rw [hid]; simp
        simp only [List.map_cons, hyc, if_true]
        exact List.find?_cons_of_pos _ hcc
      · have hyc : (y.id == c.id) = false := by
          rw [hid]
          exact Bool.eq_false_iff.mpr hy
        simp only [List.map_cons, hyc, Bool.false_eq_true, if_false]
        rw [List.find?_cons_of_neg _ (by simp [hy])]
        refine ih ?_
        rcases h with ⟨x, hx, hxc⟩
        rcases List.mem_cons.mp hx with hxe | hxt
        · exact absurd (hxe ▸ hxc) (by simpa using hy)
        · exact ⟨x, hxt, hxc⟩

/-- `findCustomer` after `putCustomer`. -/
theorem findCustomer_putCustomer (db : DB) (c : Customer) (cid : Nat)
    (hid : c.id = cid) (h : ∃ x ∈ db.customers, (x.id == cid) = true) :
    findCustomer (putCustomer db c) cid = some c :=
  find?_replace_by_id db.customers c cid hid h

/-- The customer pre-save hook never touches the credit balance. -/
theorem customerPreSave_advance (c saved : Customer)
    (h : customerPreSave c = some saved) : saved.advance = c.advance := by
  unfold customerPreSave at h
  split at h
  · cases h; rfl
  · cases h

/-- The customer pre-save hook never touches the id. -/
theorem customerPreSave_id (c saved : Customer)
    (h : customerPreSave c = some saved) : saved.id = c.id := by
  unfold customerPreSave at h
  split at h
  · cases h; rfl
  · cases h

/-! ## Claim C10 -/

/-- Claim C10: a quantity-adjustment create/update request never changes the
persisted customers (in particular no standing delivery schedule), records
or invoices — every branch of the handler stages its change, if any, only
in the adjustment ledger. -/
theorem updateCustomerQuantity_frame (db : DB) (req : QuantityUpdateRequest)
    (newUpdateId : Nat) :
    ((updateCustomerQuantity db req newUpdateId).2).customers = db.customers ∧
    ((updateCustomerQuantity db req newUpdateId).2).records = db.records ∧
    ((updateCustomerQuantity db req newUpdateId).2).invoices = db.invoices := by
  unfold updateCustomerQuantity
  repeat' split
  all_goals exact ⟨rfl, rfl, rfl⟩

/-! ## Claim C8 -/

/-- Claim C8: with a valid month and year, a resolvable customer and an
existing invoice whose period intersects the requested one, a request with
updateExisting false fails with a conflict carrying the existing invoice's
id and invoice number, and the store is returned unchanged — no new
invoice, no write of any kind. -/
theorem generateInvoice_conflict (db : DB) (custId : Nat) (month year : Int)
    (startDate endDate : Int) (invoiceNumber : String) (newInvoiceId : Nat)
    (now : Int) (customer : Customer) (e : Invoice)
    (hm1 : 1 ≤ month) (hm2 : month ≤ 12) (hy : year ≠ 0)
    (hcust : findCustomer db custId = some customer)
    (hover : db.invoices.find? (overlapsPeriod custId startDate endDate) = some e) :
    generateCustomerMonthlyInvoice db custId month year startDate endDate false
        invoiceNumber newInvoiceId now =
      (GenInvoiceResponse.conflictExisting e.id e.invoiceNumber, db) := by
  have hm0 : (month == 0) = false := by
    simp only [beq_eq_false_iff_ne, ne_eq]
    omega
  have hy0 : (year == 0) = false := by
    simpa only [beq_eq_false_iff_ne, ne_eq] using hy
  unfold generateCustomerMonthlyInvoice
  rw [hm0, hy0, hcust, hover]
  simp only [Bool.or_self, Bool.false_eq_true, if_false]
  rw [if_neg (by omega : ¬(month < 1 ∨ 12 < month))]

/-- A customer and an invoice overlapping September 2025, for the C8
witness. -/
def custC8 : Customer :=
  { id := 4
    customerNo := 4
    name := "c4"
    isActive := true
    deliverySchedule := []
    totalDailyQuantity := 0
    totalDailyPrice := 0
    advance := 0 }

/-- An existing invoice of customer 4 covering days 230 to 259. -/
def invoiceC8 : Invoice :=
  { id := 11
    customer := 4
    invoiceNumber := "INV-25-08-0011"
    startDate := 230
    endDate := 259
    totalQuantity := 10
    totalAmount := 600
    amountPaid := 0
    dueAmount := 600
    status := InvoiceStatus.pending
    dueDate := 274
    items := []
    payments := [] }

/-- Store for the C8 witness. -/
def dbC8 : DB :=
  { customers := [custC8], records := [], invoices := [invoiceC8],
    quantityUpdates := [] }

/-- Witness for claim C8: requesting days 250-280 (month 9 of a valid
year) overlaps the existing invoice's 230-259 period — overlap, not
equality — and the call conflicts with invoice 11's number, leaving the
store untouched. -/
theorem generateInvoice_conflict_witness :
    generateCustomerMonthlyInvoice dbC8 4 9 2025 250 280 false "INV-25-09-0001" 12 0 =
      (GenInvoiceResponse.conflictExisting invoiceC8.id invoiceC8.invoiceNumber, dbC8) :=
  generateInvoice_conflict dbC8 4 9 2025 250 280 "INV-25-09-0001" 12 0 custC8 invoiceC8
    (by norm_num) (by norm_num) (by norm_num)
    (by simp [findCustomer, dbC8, custC8])
    (by simp [dbC8, overlapsPeriod, invoiceC8, custC8])

/-! ## Claim C6 -/

/-- Claim C6: paying an amount strictly greater than a positive due amount
applies exactly the due amount to the invoice — the recorded payment's
amount is the due amount, amountPaid grows by it, the invoice's dueAmount
becomes 0 and its status paid — and the excess is added to the customer's
credit balance rather than left on the invoice.  The hypothesis
`hconsist` is the at-rest invariant maintained by the invoice pre-save
hook (claim C1). -/
theorem addPayment_overpay_credits_excess (db : DB) (invoiceId : Nat) (amount : Rat)
    (method : PaymentMethod) (tid notes : Option String) (now : Int)
    (inv : Invoice) (customer : Customer)
    (hfind : db.invoices.find? (fun i => i.id == invoiceId) = some inv)
    (hdue : 0 < inv.dueAmount)
    (hover : inv.dueAmount < amount)
    (hconsist : inv.dueAmount = inv.totalAmount - inv.amountPaid)
    (hcust : findCustomer db inv.customer = some customer)
    (hvalid : scheduleValid customer = true) :
    (addPaymentToInvoice db invoiceId amount method tid notes now).1 =
      PaymentResponse.ok (invoiceAddPayment now inv
        { amount := inv.dueAmount, paymentDate := now, paymentMethod := method,
          transactionId := tid, notes := notes }) ∧
    (invoiceAddPayment now inv
        { amount := inv.dueAmount, paymentDate := now, paymentMethod := method,
          transactionId := tid, notes := notes }).payments =
      inv.payments ++
        [{ amount := inv.dueAmount, paymentDate := now, paymentMethod := method,
           transactionId := tid, notes := notes }] ∧
    (invoiceAddPayment now inv
        { amount := inv.dueAmount, paymentDate := now, paymentMethod := method,
          transactionId := tid, notes := notes }).amountPaid =
      inv.amountPaid + inv.dueAmount ∧
    (invoiceAddPayment now inv
        { amount := inv.dueAmount, paymentDate := now, paymentMethod := method,
          transactionId := tid, notes := notes }).dueAmount = 0 ∧
    (invoiceAddPayment now inv
        { amount := inv.dueAmount, paymentDate := now, paymentMethod := method,
          transactionId := tid, notes := notes }).status = InvoiceStatus.paid ∧
    (findCustomer (addPaymentToInvoice db invoiceId amount method tid notes now).2
        inv.customer).map Customer.advance =
      some (customer.advance + (amount - inv.dueAmount)) := by
  have hcid : customer.id = inv.customer := by
    simpa using List.find?_some hcust
  have hmin : min amount inv.dueAmount = inv.dueAmount := min_eq_right hover.le
  have hpos : (0 : Rat) < amount - inv.dueAmount := sub_pos.mpr hover
  have hdueZero : inv.totalAmount - (inv.amountPaid + inv.dueAmount) = 0 := by
    rw [hconsist]; ring
  have hvalid1 : customerPreSave { customer with
      advance := customer.advance + (amount - inv.dueAmount) } =
      some (recalcCustomer { customer with
        advance := customer.advance + (amount - inv.dueAmount) }) := by
    unfold customerPreSave
    rw [if_pos]
    exact hvalid
  have hcust1 : findCustomer
      (putInvoice db (invoiceAddPayment now inv
        { amount := inv.dueAmount, paymentDate := now, paymentMethod := method,
          transactionId := tid, notes := notes }))
      inv.customer = some customer := hcust
  have hkey : addPaymentToInvoice db invoiceId amount method tid notes now =
      (PaymentResponse.ok (invoiceAddPayment now inv
        { amount := inv.dueAmount, paymentDate := now, paymentMethod := method,
          transactionId := tid, notes := notes }),
       putCustomer
         (putInvoice db (invoiceAddPayment now inv
           { amount := inv.dueAmount, paymentDate := now, paymentMethod := method,
             transactionId := tid, notes := notes }))
         (recalcCustomer { customer with
            advance := customer.advance + (amount - inv.dueAmount) })) := by
    simp only [addPaymentToInvoice, hfind, if_neg (not_le.mpr (lt_trans hdue hover)),
      if_pos hover, hmin, if_pos hpos, hcust1, hvalid1]
  refine ⟨by rw [hkey], rfl, rfl, ?_, ?_, ?_⟩
  · show inv.totalAmount - (inv.amountPaid + inv.dueAmount) = 0
    exact hdueZero
  · show (if inv.totalAmount - (inv.amountPaid + inv.dueAmount) ≤ 0 then InvoiceStatus.paid
      else if inv.amountPaid + inv.dueAmount > 0 then InvoiceStatus.partiallyPaid
      else if inv.dueDate < now then InvoiceStatus.overdue
      else InvoiceStatus.pending) = InvoiceStatus.paid
    rw [if_pos (le_of_eq hdueZero)]
  · have hidr : (recalcCustomer { customer with
        advance := customer.advance + (amount - inv.dueAmount) }).id = inv.customer := by
      show customer.id = inv.customer
      exact hcid
    have hcust0 : db.customers.find? (fun c => c.id == inv.customer) = some customer :=
      hcust
    have hfinal := findCustomer_putCustomer
      (putInvoice db (invoiceAddPayment now inv
        { amount := inv.dueAmount, paymentDate := now, paymentMethod := method,
          transactionId := tid, notes := notes }))
      (recalcCustomer { customer with
         advance := customer.advance + (amount - inv.dueAmount) })
      inv.customer hidr
      ⟨customer, List.mem_of_find?_eq_some hcust0, by simpa using List.find?_some hcust0⟩
    simp only [hkey]
    rw [hfinal]
    rfl

/-- A customer with an invoice at due amount 500 for the C6 witness. -/
def custC6 : Customer :=
  { id := 5
    customerNo := 5
    name := "c5"
    isActive := true
    deliverySchedule := []
    totalDailyQuantity := 0
    totalDailyPrice := 0
    advance := 0 }

/-- The invoice of the C6 scenario: total 500, nothing paid, due 500. -/
def invoiceC6 : Invoice :=
  { id := 21
    customer := 5
    invoiceNumber := "INV-25-09-0021"
    startDate := 0
    endDate := 29
    totalQuantity := 10
    totalAmount := 500
    amountPaid := 0
    dueAmount := 500
    status := InvoiceStatus.pending
    dueDate := 44
    items := []
    payments := [] }

/-- Store for the C6 witness. -/
def dbC6 : DB :=
  { customers := [custC6], records := [], invoices := [invoiceC6],
    quantityUpdates := [] }

/-- Witness for claim C6 on the spec's own scenario: due 500, payment 700 —
the invoice records a 500 payment, reaches dueAmount 0 and status paid, and
the customer's credit grows by 200. -/
theorem addPayment_overpay_credits_excess_witness :
    (addPaymentToInvoice dbC6 21 700 PaymentMethod.cash none none 50).1 =
      PaymentResponse.ok (invoiceAddPayment 50 invoiceC6
        { amount := invoiceC6.dueAmount, paymentDate := 50,
          paymentMethod := PaymentMethod.cash, transactionId := none, notes := none }) ∧
    (invoiceAddPayment 50 invoiceC6
        { amount := invoiceC6.dueAmount, paymentDate := 50,
          paymentMethod := PaymentMethod.cash, transactionId := none, notes := none }).payments =
      invoiceC6.payments ++
        [{ amount := invoiceC6.dueAmount, paymentDate := 50,
           paymentMethod := PaymentMethod.cash, transactionId := none, notes := none }] ∧
    (invoiceAddPayment 50 invoiceC6
        { amount := invoiceC6.dueAmount, paymentDate := 50,
          paymentMethod := PaymentMethod.cash, transactionId := none, notes := none }).amountPaid =
      invoiceC6.amountPaid + invoiceC6.dueAmount ∧
    (invoiceAddPayment 50 invoiceC6
        { amount := invoiceC6.dueAmount, paymentDate := 50,
          paymentMethod := PaymentMethod.cash, transactionId := none, notes := none }).dueAmount = 0 ∧
    (invoiceAddPayment 50 invoiceC6
        { amount := invoiceC6.dueAmount, paymentDate := 50,
          paymentMethod := PaymentMethod.cash, transactionId := none, notes := none }).status =
      InvoiceStatus.paid ∧
    (findCustomer (addPaymentToInvoice dbC6 21 700 PaymentMethod.cash none none 50).2
        invoiceC6.customer).map Customer.advance =
      some (custC6.advance + (700 - invoiceC6.dueAmount)) :=
  addPayment_overpay_credits_excess dbC6 21 700 PaymentMethod.cash none none 50
    invoiceC6 custC6
    (by simp [dbC6, invoiceC6])
    (by simp [invoiceC6])
    (by norm_num [invoiceC6])
    (by simp [invoiceC6])
    (by simp [findCustomer, dbC6, custC6, invoiceC6])
    rfl

/-! ## Claim C5 -/

/-- The invoice carried by a `createdOk` response. -/
def createdInvoice? : GenInvoiceResponse → Option Invoice
  | GenInvoiceResponse.createdOk inv _ => some inv
  | _ => none

/-- The advanceUsed figure carried by a `createdOk` response. -/
def createdAdvanceUsed? : GenInvoiceResponse → Option Rat
  | GenInvoiceResponse.createdOk _ a => some a
  | _ => none

/-- Claim C5: a new monthly invoice for a customer with positive credit c
and invoice total t.  Full coverage (c ≥ t): the invoice is created with
dueAmount 0, status paid, one synthetic advance payment of t, and the
persisted balance becomes c − t.  Partial coverage (c < t): one synthetic
advance payment of c, dueAmount t − c (strictly positive), persisted
balance 0.  In both cases the stored customer reflects the deduction. -/
theorem generateInvoice_consumes_advance (db : DB) (custId : Nat) (month year : Int)
    (startDate endDate : Int) (ue : Bool) (invoiceNumber : String) (newInvoiceId : Nat)
    (now : Int) (customer : Customer)
    (hm1 : 1 ≤ month) (hm2 : month ≤ 12) (hy : year ≠ 0)
    (hcust : findCustomer db custId = some customer)
    (hover : db.invoices.find? (overlapsPeriod custId startDate endDate) = none)
    (hrec : (loadPeriodRecords db custId startDate endDate).isEmpty = false)
    (hadv : 0 < customer.advance)
    (hvalid : scheduleValid customer = true) :
    (periodTotalAmount db custId startDate endDate ≤ customer.advance →
      (createdInvoice? (generateCustomerMonthlyInvoice db custId month year startDate
          endDate ue invoiceNumber newInvoiceId now).1).map Invoice.dueAmount = some 0 ∧
      (createdInvoice? (generateCustomerMonthlyInvoice db custId month year startDate
          endDate ue invoiceNumber newInvoiceId now).1).map Invoice.status =
        some InvoiceStatus.paid ∧
      (createdInvoice? (generateCustomerMonthlyInvoice db custId month year startDate
          endDate ue invoiceNumber newInvoiceId now).1).map Invoice.amountPaid =
        some (periodTotalAmount db custId startDate endDate) ∧
      (createdInvoice? (generateCustomerMonthlyInvoice db custId month year startDate
          endDate ue invoiceNumber newInvoiceId now).1).map
          (fun i => i.payments.map (fun p => (p.amount, p.paymentMethod))) =
        some [(periodTotalAmount db custId startDate endDate, PaymentMethod.advance)] ∧
      createdAdvanceUsed? (generateCustomerMonthlyInvoice db custId month year startDate
          endDate ue invoiceNumber newInvoiceId now).1 =
        some (periodTotalAmount db custId startDate endDate) ∧
      (findCustomer (generateCustomerMonthlyInvoice db custId month year startDate
          endDate ue invoiceNumber newInvoiceId now).2 custId).map Customer.advance =
        some (customer.advance - periodTotalAmount db custId startDate endDate)) ∧
    (customer.advance < periodTotalAmount db custId startDate endDate →
      (createdInvoice? (generateCustomerMonthlyInvoice db custId month year startDate
          endDate ue invoiceNumber newInvoiceId now).1).map Invoice.dueAmount =
        some (periodTotalAmount db custId startDate endDate - customer.advance) ∧
      (0 : Rat) < periodTotalAmount db custId startDate endDate - customer.advance ∧
      (createdInvoice? (generateCustomerMonthlyInvoice db custId month year startDate
          endDate ue invoiceNumber newInvoiceId now).1).map Invoice.amountPaid =
        some customer.advance ∧
      (createdInvoice? (generateCustomerMonthlyInvoice db custId month year startDate
          endDate ue invoiceNumber newInvoiceId now).1).map
          (fun i => i.payments.map (fun p => (p.amount, p.paymentMethod))) =
        some [(customer.advance, PaymentMethod.advance)] ∧
      (findCustomer (generateCustomerMonthlyInvoice db custId month year startDate
          endDate ue invoiceNumber newInvoiceId now).2 custId).map Customer.advance =
        some 0) := by
  have hm0 : (month == 0) = false := by
    simp only [beq_eq_false_iff_ne, ne_eq]
    omega
  have hy0 : (year == 0) = false := by
    simpa only [beq_eq_false_iff_ne, ne_eq] using hy
  have hcid : customer.id = custId := by
    have hcust0 : db.customers.find? (fun c => c.id == custId) = some customer := hcust
    simpa using List.find?_some hcust0
  have hex : ∃ x ∈ db.customers, (x.id == custId) = true := by
    have hcust0 : db.customers.find? (fun c => c.id == custId) = some customer := hcust
    exact ⟨customer, List.mem_of_find?_eq_some hcust0,
      by simpa using List.find?_some hcust0⟩
  have hpath : generateCustomerMonthlyInvoice db custId month year startDate endDate ue
      invoiceNumber newInvoiceId now =
      createNewInvoice db customer custId startDate endDate
        (periodTotalQuantity db custId startDate endDate)
        (periodTotalAmount db custId startDate endDate)
        (periodItems db custId startDate endDate)
        invoiceNumber newInvoiceId now := by
    unfold generateCustomerMonthlyInvoice
    rw [hm0, hy0, hcust, hover]
    simp only [Bool.or_self, Bool.false_eq_true, if_false]
    rw [if_neg (by omega : ¬(month < 1 ∨ 12 < month)), hrec]
    simp only [Bool.false_eq_true, if_false]
  constructor
  · intro hTle
    have hsave : customerPreSave { customer with
        advance := customer.advance - periodTotalAmount db custId startDate endDate } =
        some (recalcCustomer { customer with
          advance := customer.advance - periodTotalAmount db custId startDate endDate }) := by
      unfold customerPreSave
      rw [if_pos]
      exact hvalid
    have hkey : createNewInvoice db customer custId startDate endDate
        (periodTotalQuantity db custId startDate endDate)
        (periodTotalAmount db custId startDate endDate)
        (periodItems db custId startDate endDate)
        invoiceNumber newInvoiceId now =
        (GenInvoiceResponse.createdOk
          (invoicePreSave now (invoicePreSave now
            { id := newInvoiceId
              customer := custId
              invoiceNumber := invoiceNumber
              startDate := startDate
              endDate := endDate
              totalQuantity := periodTotalQuantity db custId startDate endDate
              totalAmount := periodTotalAmount db custId startDate endDate
              amountPaid := periodTotalAmount db custId startDate endDate
              dueAmount := 0
              status := initialStatus (periodTotalAmount db custId startDate endDate)
                (periodTotalAmount db custId startDate endDate)
              dueDate := endDate + 15
              items := periodItems db custId startDate endDate
              payments :=
                [{ amount := periodTotalAmount db custId startDate endDate
                   paymentDate := now
                   paymentMethod := PaymentMethod.advance
                   transactionId := none
                   notes := some "Advance applied from previous overpayment" }] }))
          (periodTotalAmount db custId startDate endDate),
         { putCustomer db (recalcCustomer { customer with
             advance := customer.advance - periodTotalAmount db custId startDate endDate })
           with invoices :=
             (putCustomer db (recalcCustomer { customer with
               advance := customer.advance -
                 periodTotalAmount db custId startDate endDate })).invoices ++
             [invoicePreSave now (invoicePreSave now
               { id := newInvoiceId
                 customer := custId
                 invoiceNumber := invoiceNumber
                 startDate := startDate
                 endDate := endDate
                 totalQuantity := periodTotalQuantity db custId startDate endDate
                 totalAmount := periodTotalAmount db custId startDate endDate
                 amountPaid := periodTotalAmount db custId startDate endDate
                 dueAmount := 0
                 status := initialStatus (periodTotalAmount db custId startDate endDate)
                   (periodTotalAmount db custId startDate endDate)
                 dueDate := endDate + 15
                 items := periodItems db custId startDate endDate
                 payments :=
                   [{ amount := periodTotalAmount db custId startDate endDate
                      paymentDate := now
                      paymentMethod := PaymentMethod.advance
                      transactionId := none
                      notes := some "Advance applied from previous overpayment" }] })] }) := by
      simp only [createNewInvoice, applyAdvance, if_pos hadv, if_pos hTle, hsave]
      rfl
    rw [hpath, hkey]
    have hsub : periodTotalAmount db custId startDate endDate -
        periodTotalAmount db custId startDate endDate = 0 := sub_self _
    refine ⟨?_, ?_, rfl, rfl, rfl, ?_⟩
    · show some (periodTotalAmount db custId startDate endDate -
        periodTotalAmount db custId startDate endDate) = some (0 : Rat)
      rw [hsub]
    · show some (if periodTotalAmount db custId startDate endDate -
          periodTotalAmount db custId startDate endDate ≤ 0 then InvoiceStatus.paid
        else if periodTotalAmount db custId startDate endDate > 0 then
          InvoiceStatus.partiallyPaid
        else if endDate + 15 < now then InvoiceStatus.overdue
        else InvoiceStatus.pending) = some InvoiceStatus.paid
      rw [hsub, if_pos (le_refl (0 : Rat))]
    · have hidr : (recalcCustomer { customer with
          advance := customer.advance - periodTotalAmount db custId startDate endDate }).id =
          custId := hcid
      have hfc := findCustomer_putCustomer db
        (recalcCustomer { customer with
          advance := customer.advance - periodTotalAmount db custId startDate endDate })
        custId hidr hex
      show (findCustomer (putCustomer db (recalcCustomer { customer with
          advance := customer.advance - periodTotalAmount db custId startDate endDate }))
        custId).map Customer.advance = _
      rw [hfc]
      rfl
  · intro hlt
    have hsave : customerPreSave { customer with advance := 0 } =
        some (recalcCustomer { customer with advance := 0 }) := by
      unfold customerPreSave
      rw [if_pos]
      exact hvalid
    have hkey : createNewInvoice db customer custId startDate endDate
        (periodTotalQuantity db custId startDate endDate)
        (periodTotalAmount db custId startDate endDate)
        (periodItems db custId startDate endDate)
        invoiceNumber newInvoiceId now =
        (GenInvoiceResponse.createdOk
          (invoicePreSave now (invoicePreSave now
            { id := newInvoiceId
              customer := custId
              invoiceNumber := invoiceNumber
              startDate := startDate
              endDate := endDate
              totalQuantity := periodTotalQuantity db custId startDate endDate
              totalAmount := periodTotalAmount db custId startDate endDate
              amountPaid := customer.advance
              dueAmount := periodTotalAmount db custId startDate endDate - customer.advance
              status := initialStatus customer.advance
                (periodTotalAmount db custId startDate endDate)
              dueDate := endDate + 15
              items := periodItems db custId startDate endDate
              payments :=
                [{ amount := customer.advance
                   paymentDate := now
                   paymentMethod := PaymentMethod.advance
                   transactionId := none
                   notes := some "Advance applied from previous overpayment" }] }))
          customer.advance,
         { putCustomer db (recalcCustomer { customer with advance := 0 })
           with invoices :=
             (putCustomer db (recalcCustomer { customer with advance := 0 })).invoices ++
             [invoicePreSave now (invoicePreSave now
               { id := newInvoiceId
                 customer := custId
                 invoiceNumber := invoiceNumber
                 startDate := startDate
                 endDate := endDate
                 totalQuantity := periodTotalQuantity db custId startDate endDate
                 totalAmount := periodTotalAmount db custId startDate endDate
                 amountPaid := customer.advance
                 dueAmount := periodTotalAmount db custId startDate endDate - customer.advance
                 status := initialStatus customer.advance
                   (periodTotalAmount db custId startDate endDate)
                 dueDate := endDate + 15
                 items := periodItems db custId startDate endDate
                 payments :=
                   [{ amount := customer.advance
                      paymentDate := now
                      paymentMethod := PaymentMethod.advance
                      transactionId := none
                      notes := some "Advance applied from previous overpayment" }] })] }) := by
      simp only [createNewInvoice, applyAdvance, if_pos hadv,
        if_neg (not_le.mpr hlt), hsave]
      rfl
    rw [hpath, hkey]
    refine ⟨rfl, sub_pos.mpr hlt, rfl, rfl, ?_⟩
    · have hidr : (recalcCustomer { customer with advance := 0 }).id = custId := hcid
      have hfc := findCustomer_putCustomer db
        (recalcCustomer { customer with advance := 0 }) custId hidr hex
      show (findCustomer (putCustomer db
        (recalcCustomer { customer with advance := 0 })) custId).map Customer.advance = _
      rw [hfc]
      rfl

/-- Customer with credit 3500, for the full-coverage C5 scenario. -/
def custC5 : Customer :=
  { id := 6, customerNo := 6, name := "c6", isActive := true, deliverySchedule := [],
    totalDailyQuantity := 0, totalDailyPrice := 0, advance := 3500 }

/-- A daily record worth 3000 inside the period, for customer 6. -/
def recC5 : DailyRecord :=
  { customer := 6, date := 5, deliverySchedule := [], totalDailyQuantity := 50,
    totalDailyPrice := 3000 }

/-- Store for the full-coverage C5 scenario. -/
def dbC5 : DB :=
  { customers := [custC5], records := [recC5], invoices := [], quantityUpdates := [] }

/-- Customer with credit 500, for the partial-coverage C5 scenario. -/
def custC5b : Customer :=
  { id := 16, customerNo := 16, name := "c16", isActive := true, deliverySchedule := [],
    totalDailyQuantity := 0, totalDailyPrice := 0, advance := 500 }

/-- A daily record worth 3000 inside the period, for customer 16. -/
def recC5b : DailyRecord :=
  { customer := 16, date := 5, deliverySchedule := [], totalDailyQuantity := 50,
    totalDailyPrice := 3000 }

/-- Store for the partial-coverage C5 scenario. -/
def dbC5b : DB :=
  { customers := [custC5b], records := [recC5b], invoices := [], quantityUpdates := [] }

/-- Witness for claim C5 on the spec's scenario (total 3000, credit 3500)
and on a partial-coverage one (total 3000, credit 500): full coverage gives
dueAmount 0, status paid, one advance payment of the total and balance
3500 − 3000; partial coverage gives dueAmount 3000 − 500, one advance
payment of 500 and balance 0. -/
theorem generateInvoice_consumes_advance_witness :
    (createdInvoice? (generateCustomerMonthlyInvoice dbC5 6 9 2025 1 30 false
        "INV-25-09-0002" 31 7).1).map Invoice.dueAmount = some 0 ∧
    (createdInvoice? (generateCustomerMonthlyInvoice dbC5 6 9 2025 1 30 false
        "INV-25-09-0002" 31 7).1).map Invoice.status = some InvoiceStatus.paid ∧
    (createdInvoice? (generateCustomerMonthlyInvoice dbC5 6 9 2025 1 30 false
        "INV-25-09-0002" 31 7).1).map
        (fun i => i.payments.map (fun p => (p.amount, p.paymentMethod))) =
      some [(periodTotalAmount dbC5 6 1 30, PaymentMethod.advance)] ∧
    (findCustomer (generateCustomerMonthlyInvoice dbC5 6 9 2025 1 30 false
        "INV-25-09-0002" 31 7).2 6).map Customer.advance =
      some (custC5.advance - periodTotalAmount dbC5 6 1 30) ∧
    (createdInvoice? (generateCustomerMonthlyInvoice dbC5b 16 9 2025 1 30 false
        "INV-25-09-0003" 32 7).1).map Invoice.dueAmount =
      some (periodTotalAmount dbC5b 16 1 30 - custC5b.advance) ∧
    (0 : Rat) < periodTotalAmount dbC5b 16 1 30 - custC5b.advance ∧
    (createdInvoice? (generateCustomerMonthlyInvoice dbC5b 16 9 2025 1 30 false
        "INV-25-09-0003" 32 7).1).map
        (fun i => i.payments.map (fun p => (p.amount, p.paymentMethod))) =
      some [(custC5b.advance, PaymentMethod.advance)] ∧
    (findCustomer (generateCustomerMonthlyInvoice dbC5b 16 9 2025 1 30 false
        "INV-25-09-0003" 32 7).2 16).map Customer.advance = some 0 := by
  have hTA : periodTotalAmount dbC5 6 1 30 = 3000 := by
    norm_num [periodTotalAmount, loadPeriodRecords, dbC5, recC5]
  have hTB : periodTotalAmount dbC5b 16 1 30 = 3000 := by
    norm_num [periodTotalAmount, loadPeriodRecords, dbC5b, recC5b]
  have hA := generateInvoice_consumes_advance dbC5 6 9 2025 1 30 false
    "INV-25-09-0002" 31 7 custC5
    (by norm_num) (by norm_num) (by norm_num)
    (by simp [findCustomer, dbC5, custC5])
    rfl
    (by norm_num [loadPeriodRecords, dbC5, recC5])
    (by norm_num [custC5])
    rfl
  have hB := generateInvoice_consumes_advance dbC5b 16 9 2025 1 30 false
    "INV-25-09-0003" 32 7 custC5b
    (by norm_num) (by norm_num) (by norm_num)
    (by simp [findCustomer, dbC5b, custC5b])
    rfl
    (by norm_num [loadPeriodRecords, dbC5b, recC5b])
    (by norm_num [custC5b])
    rfl
  have hA1 := hA.1 (by rw [hTA]; norm_num [custC5])
  have hB1 := hB.2 (by rw [hTB]; norm_num [custC5b])
  exact ⟨hA1.1, hA1.2.1, hA1.2.2.2.1, hA1.2.2.2.2.2,
    hB1.1, hB1.2.1, hB1.2.2.2.1, hB1.2.2.2.2⟩

/-! ## Claim C9 -/

/-- All persisted credit balances are non-negative. -/
def advancesNonneg (db : DB) : Prop :=
  ∀ c ∈ db.customers, 0 ≤ c.advance

/-- A successful customer save is the recomputation of the document. -/
theorem customerPreSave_eq (x saved : Customer)
    (h : customerPreSave x = some saved) : saved = recalcCustomer x := by
  unfold customerPreSave at h
  split at h
  · exact (Option.some.inj h).symm
  · cases h

/-- Writing back a customer with a non-negative balance preserves the
store-wide invariant. -/
theorem advancesNonneg_putCustomer (db : DB) (c : Customer)
    (hdb : advancesNonneg db) (hc : 0 ≤ c.advance) :
    advancesNonneg (putCustomer db c) := by
  intro x hx
  simp only [putCustomer, List.mem_map] at hx
  obtain ⟨y, hy, hxy⟩ := hx
  by_cases h : (y.id == c.id) = true
  · rw [if_pos h] at hxy
    exact hxy ▸ hc
  · rw [if_neg h] at hxy
    exact hxy ▸ hdb y hy

/-- The customer that invoice generation saves after consuming credit still
has a non-negative balance: full coverage leaves `advance − total ≥ 0`
(since `total ≤ advance` in that branch) and partial coverage leaves 0. -/
theorem applyAdvance_customer_nonneg (now : Int) (customer : Customer) (ta : Rat)
    (d ap : Rat) (pays : List Payment) (au : Rat) (ca : Customer)
    (h : applyAdvance now customer ta = (d, ap, pays, au, some ca)) :
    0 ≤ ca.advance := by
  unfold applyAdvance at h
  by_cases h1 : 0 < customer.advance
  · rw [if_pos h1] at h
    by_cases h2 : ta ≤ customer.advance
    · rw [if_pos h2] at h
      have h5 := congrArg (fun p => p.2.2.2.2) h
      dsimp only at h5
      rw [← Option.some.inj h5]
      exact sub_nonneg.mpr h2
    · rw [if_neg h2] at h
      have h5 := congrArg (fun p => p.2.2.2.2) h
      dsimp only at h5
      rw [← Option.some.inj h5]
  · rw [if_neg h1] at h
    have h5 := congrArg (fun p => p.2.2.2.2) h
    dsimp only at h5
    cases h5

/-- The create-new-invoice branch preserves the invariant. -/
theorem advancesNonneg_createNewInvoice (db : DB) (customer : Customer) (custId : Nat)
    (startDate endDate : Int) (tq ta : Rat) (items : List InvoiceItem)
    (invoiceNumber : String) (newInvoiceId : Nat) (now : Int)
    (hdb : advancesNonneg db) :
    advancesNonneg (createNewInvoice db customer custId startDate endDate tq ta items
      invoiceNumber newInvoiceId now).2 := by
  unfold createNewInvoice
  rcases happ : applyAdvance now customer ta with ⟨d, ap, pays, au, cs⟩
  simp only [happ]
  cases cs with
  | none => exact hdb
  | some ca =>
      cases hps : customerPreSave ca with
      | none =>
          simp only [hps, Option.map_none]
          exact hdb
      | some saved =>
          simp only [hps, Option.map_some]
          intro x hx
          refine advancesNonneg_putCustomer db saved hdb ?_ x hx
          rw [customerPreSave_eq ca saved hps]
          exact applyAdvance_customer_nonneg now customer ta d ap pays au ca happ

/-- The add-payment endpoint preserves the invariant: the only balance it
writes is `advance + overpaid` with `overpaid > 0`. -/
theorem advancesNonneg_addPayment (db : DB) (iid : Nat) (amount : Rat)
    (method : PaymentMethod) (tid notes : Option String) (now : Int)
    (hdb : advancesNonneg db) :
    advancesNonneg (addPaymentToInvoice db iid amount method tid notes now).2 := by
  by_cases h0 : amount ≤ 0
  · simp only [addPaymentToInvoice, if_pos h0]
    exact hdb
  · simp only [addPaymentToInvoice, if_neg h0]
    cases hfind : db.invoices.find? (fun i => i.id == iid) with
    | none => exact hdb
    | some inv =>
        by_cases hov : (0 : Rat) <
            (if inv.dueAmount < amount then amount - inv.dueAmount else 0)
        · simp only [if_pos hov]
          cases hfc : findCustomer (putInvoice db (invoiceAddPayment now inv
              { amount := min amount inv.dueAmount, paymentDate := now,
                paymentMethod := method, transactionId := tid, notes := notes }))
              inv.customer with
          | none => exact hdb
          | some customer =>
              dsimp only
              cases hps : customerPreSave { customer with
                  advance := customer.advance +
                    (if inv.dueAmount < amount then amount - inv.dueAmount else 0) } with
              | none => exact hdb
              | some saved =>
                  intro x hx
                  refine advancesNonneg_putCustomer _ saved hdb ?_ x hx
                  rw [customerPreSave_eq _ saved hps]
                  have hfc0 : db.customers.find? (fun c => c.id == inv.customer) =
                      some customer := hfc
                  have hmem : customer ∈ db.customers :=
                    List.mem_of_find?_eq_some hfc0
                  exact add_nonneg (hdb customer hmem) hov.le
        · simp only [if_neg hov]
          exact hdb

/-- The generation endpoint preserves the invariant on every path. -/
theorem advancesNonneg_generate (db : DB) (custId : Nat) (month year : Int)
    (startDate endDate : Int) (ue : Bool) (invoiceNumber : String)
    (newInvoiceId : Nat) (now : Int) (hdb : advancesNonneg db) :
    advancesNonneg (generateCustomerMonthlyInvoice db custId month year startDate
      endDate ue invoiceNumber newInvoiceId now).2 := by
  by_cases hg1 : (month == 0 || year == 0) = true
  · simp only [generateCustomerMonthlyInvoice, if_pos hg1]
    exact hdb
  · by_cases hg2 : month < 1 ∨ 12 < month
    · simp only [generateCustomerMonthlyInvoice, if_neg hg1, if_pos hg2]
      exact hdb
    · simp only [generateCustomerMonthlyInvoice, if_neg hg1, if_neg hg2]
      cases hfc : findCustomer db custId with
      | none => exact hdb
      | some customer =>
          cases hov : db.invoices.find? (overlapsPeriod custId startDate endDate) with
          | some e =>
              by_cases hue : ue = true
              · by_cases hemp : ((loadPeriodRecords db custId startDate endDate).isEmpty
                    = true)
                · simp only [if_pos hue, if_pos hemp]
                  exact hdb
                · simp only [if_pos hue, if_neg hemp]
                  exact hdb
              · simp only [if_neg hue]
                exact hdb
          | none =>
              by_cases hemp : ((loadPeriodRecords db custId startDate endDate).isEmpty
                  = true)
              · simp only [if_pos hemp]
                exact hdb
              · simp only [if_neg hemp]
                exact advancesNonneg_createNewInvoice db customer custId startDate endDate
                  (periodTotalQuantity db custId startDate endDate)
                  (periodTotalAmount db custId startDate endDate)
                  (periodItems db custId startDate endDate)
                  invoiceNumber newInvoiceId now hdb

/-- Customer with balance 100 and empty schedule, for the C9
counterexample. -/
def custC9 : Customer :=
  { id := 3, customerNo := 3, name := "c3", isActive := true, deliverySchedule := [],
    totalDailyQuantity := 0, totalDailyPrice := 0, advance := 100 }

/-- Store for the C9 counterexample. -/
def dbC9 : DB :=
  { customers := [custC9], records := [], invoices := [], quantityUpdates := [] }

/-- Counterexample to claim C9: submitting amount −500 to the add-advance
endpoint for a customer with balance 100 succeeds (no validation error) and
persists the negative balance −400. -/
theorem createAdvancePayment_accepts_negative :
    ((createAdvancePayment dbC9 3 (-500)).2.customers.map Customer.advance
      = [(-400 : Rat)]) ∧
    (createAdvancePayment dbC9 3 (-500)).1 =
      AdvanceResponse.ok (recalcCustomer { custC9 with
        advance := custC9.advance + (-500) }) ∧
    ((-400 : Rat) < 0) := by
  refine ⟨?_, ?_, by norm_num⟩
  · simp [createAdvancePayment, findCustomer, dbC9, custC9, customerPreSave,
      scheduleValid, recalcCustomer, putCustomer]
    norm_num
  · simp [createAdvancePayment, findCustomer, dbC9, custC9, customerPreSave,
      scheduleValid, recalcCustomer, putCustomer]

/-- Claim C9 as amended: the direct admin set rejects negative values with a
validation error and leaves the store unchanged; the set with a
non-negative value, the clear, the payment flow and the invoice-generation
credit consumption all preserve store-wide non-negativity of balances; but
the add-advance endpoint performs no validation, and preserves the
invariant only when the submitted amount is non-negative (the
counterexample shows a negative amount driving a balance below zero). -/
theorem creditBalance_nonneg_amended (db : DB) (cid iid custId : Nat) (amount : Rat)
    (method : PaymentMethod) (tid notes : Option String) (now : Int)
    (month year startDate endDate : Int) (ue : Bool) (invoiceNumber : String)
    (newInvoiceId : Nat) (hdb : advancesNonneg db) :
    (amount < 0 → updateAdvanceAmount db cid amount =
      (AdvanceResponse.badRequest "Invalid amount", db)) ∧
    (0 ≤ amount → advancesNonneg (updateAdvanceAmount db cid amount).2) ∧
    advancesNonneg (clearAdvanceAmount db cid).2 ∧
    (0 ≤ amount → advancesNonneg (createAdvancePayment db cid amount).2) ∧
    advancesNonneg (addPaymentToInvoice db iid amount method tid notes now).2 ∧
    advancesNonneg (generateCustomerMonthlyInvoice db custId month year startDate
      endDate ue invoiceNumber newInvoiceId now).2 := by
  refine ⟨?_, ?_, ?_, ?_,
    advancesNonneg_addPayment db iid amount method tid notes now hdb,
    advancesNonneg_generate db custId month year startDate endDate ue invoiceNumber
      newInvoiceId now hdb⟩
  · intro h
    unfold updateAdvanceAmount
    rw [if_pos h]
  · intro h
    unfold updateAdvanceAmount
    rw [if_neg (not_lt.mpr h)]
    cases hfc : findCustomer db cid with
    | none => exact hdb
    | some customer =>
        dsimp only
        cases hps : customerPreSave { customer with advance := amount } with
        | none => exact hdb
        | some saved =>
            intro x hx
            refine advancesNonneg_putCustomer db saved hdb ?_ x hx
            rw [customerPreSave_eq _ saved hps]
            exact h
  · unfold clearAdvanceAmount
    cases hfc : findCustomer db cid with
    | none => exact hdb
    | some customer =>
        dsimp only
        cases hps : customerPreSave { customer with advance := 0 } with
        | none => exact hdb
        | some saved =>
            intro x hx
            refine advancesNonneg_putCustomer db saved hdb ?_ x hx
            rw [customerPreSave_eq _ saved hps]
            exact le_refl 0
  · intro h
    unfold createAdvancePayment
    cases hfc : findCustomer db cid with
    | none => exact hdb
    | some customer =>
        dsimp only
        cases hps : customerPreSave { customer with
            advance := customer.advance + amount } with
        | none => exact hdb
        | some saved =>
            intro x hx
            refine advancesNonneg_putCustomer db saved hdb ?_ x hx
            rw [customerPreSave_eq _ saved hps]
            have hfc0 : db.customers.find? (fun c => c.id == cid) = some customer := hfc
            exact add_nonneg (hdb customer (List.mem_of_find?_eq_some hfc0)) h

/-- Witness for the amended claim C9 at the concrete store `dbC9` (one
customer with balance 100), with a positive amount 5. -/
theorem creditBalance_nonneg_amended_witness :
    ((5 : Rat) < 0 → updateAdvanceAmount dbC9 3 5 =
      (AdvanceResponse.badRequest "Invalid amount", dbC9)) ∧
    ((0 : Rat) ≤ 5 → advancesNonneg (updateAdvanceAmount dbC9 3 5).2) ∧
    advancesNonneg (clearAdvanceAmount dbC9 3).2 ∧
    ((0 : Rat) ≤ 5 → advancesNonneg (createAdvancePayment dbC9 3 5).2) ∧
    advancesNonneg (addPaymentToInvoice dbC9 3 5 PaymentMethod.cash none none 0).2 ∧
    advancesNonneg (generateCustomerMonthlyInvoice dbC9 3 9 2025 1 30 false
      "INV-25-09-0009" 91 0).2 :=
  creditBalance_nonneg_amended dbC9 3 3 3 5 PaymentMethod.cash none none 0
    9 2025 1 30 false "INV-25-09-0009" 91
    (by
      intro c hc
      simp only [dbC9, List.mem_singleton] at hc
      rw [hc]
      norm_num [custC9])

end Dairy
